import Mathlib

/-!
Verification of the automation rule engine (app/automation_engine.py).

The engine is shallowly embedded: Python attribute values become the
inductive type PyVal, SQLAlchemy entities become finite attribute maps
with an id and an optional table name, the database session becomes an
explicit record of rule / notification / activity rows, and an uncaught
Python exception is modelled as Option.none in the result.
-/

/-- A Python value as it occurs in entity attributes, rule conditions and
action configs of the engine: None, bool, int or str. -/
inductive PyVal where
  | none : PyVal
  | bool : Bool → PyVal
  | int : Int → PyVal
  | str : String → PyVal
deriving DecidableEq, Repr

/-- Python truthiness: bool(x) for the values the engine tests with
bare `if x:`. -/
def PyVal.truthy : PyVal → Bool
  | .none => false
  | .bool b => b
  | .int n => n != 0
  | .str s => s != ""

/-- Numeric view of a Python value: ints are themselves, bools are 0/1
(Python bool is a subtype of int); None and str are not numeric. -/
def PyVal.toNum : PyVal → Option Int
  | .bool b => some (if b then 1 else 0)
  | .int n => some n
  | _ => Option.none

/-- Python `a < b`: defined between numbers and between strings,
a TypeError (modelled as Option.none) otherwise. -/
def pyLt (a b : PyVal) : Option Bool :=
  match a.toNum, b.toNum with
  | some m, some n => some (decide (m < n))
  | _, _ =>
    match a, b with
    | .str s, .str t => some (decide (s < t))
    | _, _ => Option.none

/-- Python `a == b`: never raises; numbers compare across int/bool,
values of unrelated types are unequal. -/
def pyEq (a b : PyVal) : Bool :=
  match a.toNum, b.toNum with
  | some m, some n => m == n
  | _, _ =>
    match a, b with
    | .str s, .str t => s == t
    | .none, .none => true
    | _, _ => false

/-- Decimal digit value of a character, none for a non-digit. -/
def chDigit (c : Char) : Option Nat :=
  if 48 ≤ c.toNat ∧ c.toNat ≤ 57 then some (c.toNat - 48) else Option.none

/-- Accumulating decimal parser over a character list; any non-digit
character fails the parse. -/
def parseNatAux : List Char → Nat → Option Nat
  | [], acc => some acc
  | c :: cs, acc =>
    match chDigit c with
    | some d => parseNatAux cs (acc * 10 + d)
    | Option.none => Option.none

/-- Integer-literal parse of a string: an optional sign followed by at
least one decimal digit; anything else fails. -/
def strToInt (s : String) : Option Int :=
  match s.data with
  | [] => Option.none
  | c :: cs =>
    if c = '-' then
      match cs with
      | [] => Option.none
      | _ => (parseNatAux cs 0).map fun n => -(n : Int)
    else if c = '+' then
      match cs with
      | [] => Option.none
      | _ => (parseNatAux cs 0).map fun n => (n : Int)
    else (parseNatAux (c :: cs) 0).map fun n => (n : Int)

/-- Python `int(x)`: ints pass through, bools become 0/1, integer-literal
strings parse, anything else raises (Option.none). -/
def pyInt : PyVal → Option Int
  | .int n => some n
  | .bool b => some (if b then 1 else 0)
  | .str s => strToInt s
  | .none => Option.none

/-- Python `str(x)`. -/
def pyStr : PyVal → String
  | .none => "None"
  | .bool b => if b then "True" else "False"
  | .int n => toString n
  | .str s => s

/-- Python `d.get(k)` on an ordered string-keyed mapping (dict embedded as
an association list in insertion order). -/
def dictGet (d : List (String × PyVal)) (k : String) : Option PyVal :=
  (d.find? fun p => p.1 == k).map fun p => p.2

/-- A triggering SQLAlchemy entity: every model row has an integer primary
key id, a __tablename__ discriminator, and further named attributes.
An arbitrary Python object passed as entity may lack __tablename__,
hence the Option. -/
structure Entity where
  id : Int
  tablename : Option String
  attrs : List (String × PyVal)
deriving DecidableEq, Repr

/-- Python getattr(entity, k) as an Option: some value when the attribute
exists, none when it does not (hasattr is isSome of this). -/
def Entity.getattr (e : Entity) (k : String) : Option PyVal :=
  if k = "id" then some (.int e.id)
  else if k = "__tablename__" then e.tablename.map PyVal.str
  else (e.attrs.find? fun p => p.1 == k).map fun p => p.2

/-- The AutomationRule row, fields as read by the engine.  The class
declaration itself is absent from app/models.py; its columns are modelled
from the spec data model (name, trigger_type, condition mapping,
action_type, action_config mapping, enabled flag). -/
structure AutomationRule where
  name : String
  trigger_type : String
  condition : List (String × PyVal)
  action_type : String
  action_config : List (String × PyVal)
  enabled : Bool
deriving DecidableEq, Repr

/-- The acting user; the engine only reads user.id (and stringifies it). -/
structure User where
  id : PyVal
deriving DecidableEq, Repr

/-- A Notification row as created by the engine (columns it sets). -/
structure Notification where
  user_id : String
  title : String
  message : PyVal
  type : String
  read : Bool
deriving DecidableEq, Repr

/-- An Activity row as created by the engine (columns it sets); date is a
timestamp in days, so now + timedelta(days = n) is now + n. -/
structure Activity where
  contact_id : PyVal
  deal_id : PyVal
  type : PyVal
  subject : PyVal
  description : PyVal
  date : Int
  completed : Bool
deriving DecidableEq, Repr

/-- The database state visible to the engine: stored rules (in insertion
order) and the notification and activity tables. -/
structure DB where
  rules : List AutomationRule
  notifications : List Notification
  activities : List Activity
deriving DecidableEq, Repr

/-- check_condition (automation_engine.py lines 19-32): iterate the
condition entries in order; probability_gte compares the probability
attribute (default 0) against the threshold with Python <; other keys
present on the entity must compare equal; absent keys are skipped.
Option.none models an uncaught TypeError from the comparison. -/
def check_condition : List (String × PyVal) → Entity → Option Bool
  | [], _ => some true
  | (k, v) :: rest, e =>
    if k = "probability_gte" then
      match pyLt ((e.getattr "probability").getD (.int 0)) v with
      | Option.none => Option.none
      | some true => some false
      | some false => check_condition rest e
    else
      match e.getattr k with
      | some a => if pyEq a v then check_condition rest e else some false
      | Option.none => check_condition rest e

/-- Contact resolution of the create_activity branch (lines 52-57):
a present and truthy contact_id attribute wins, else a contact entity
contributes its own id, else None. -/
def resolve_contact (e : Entity) : PyVal :=
  match e.getattr "contact_id" with
  | some v =>
    if v.truthy then v
    else if e.tablename = some "contacts" then .int e.id else .none
  | Option.none =>
    if e.tablename = some "contacts" then .int e.id else .none

/-- Deal resolution of the create_activity branch (lines 64-66): start
from the deal_id attribute (None when absent), then unconditionally
overwrite with the entity id when the entity is a deals row. -/
def resolve_deal (e : Entity) : PyVal :=
  let d := (e.getattr "deal_id").getD .none
  if e.tablename = some "deals" then .int e.id else d

/-- execute_action (lines 34-78).  create_notification appends one
notification; create_activity resolves a contact (silent return when the
resolved value is falsy), coerces due_in_days with int() (raising on
failure, before any row is built), resolves a deal and appends one
activity; any other action_type is a no-op.  Option.none models an
uncaught exception. -/
def execute_action (db : DB) (action_type : String)
    (config : List (String × PyVal)) (entity : Entity) (user : User)
    (now : Int) : Option DB :=
  if action_type = "create_notification" then
    let message := (dictGet config "message").getD (PyVal.str "Automation Alert")
    some { db with notifications := db.notifications ++
      [{ user_id := pyStr user.id, title := "Automation Rule",
         message := message, type := "system", read := false }] }
  else if action_type = "create_activity" then
    let contact_id := resolve_contact entity
    if contact_id.truthy then
      match pyInt ((dictGet config "due_in_days").getD (PyVal.int 0)) with
      | Option.none => Option.none
      | some due_days =>
        let due_date := now + due_days
        let deal_id := resolve_deal entity
        some { db with activities := db.activities ++
          [{ contact_id := contact_id, deal_id := deal_id,
             type := (dictGet config "type").getD (PyVal.str "task"),
             subject := (dictGet config "subject").getD (PyVal.str "Automated Task"),
             description := (dictGet config "description").getD (PyVal.str "Created by automation rule"),
             date := due_date, completed := false }] }
    else some db
  else some db

/-- The loop of evaluate_rules (lines 15-17): over an already selected
rule list, execute the action of each rule whose condition holds,
threading the database state; an exception aborts the dispatch. -/
def run_rules (entity : Entity) (user : User) (now : Int) :
    List AutomationRule → DB → Option DB
  | [], db => some db
  | r :: rest, db =>
    match check_condition r.condition entity with
    | Option.none => Option.none
    | some false => run_rules entity user now rest db
    | some true =>
      match execute_action db r.action_type r.action_config entity user now with
      | Option.none => Option.none
      | some db2 => run_rules entity user now rest db2

/-- evaluate_rules (lines 5-17): select the stored rules whose
trigger_type equals the given string and whose enabled flag is set
(in storage order), then run them. -/
def evaluate_rules (db : DB) (trigger_type : String) (entity : Entity)
    (user : User) (now : Int) : Option DB :=
  run_rules entity user now
    (db.rules.filter fun r => r.trigger_type == trigger_type && r.enabled) db

/-- Reference executor used to state rule selection: execute the actions
of a given rule list unconditionally, threading state. -/
def run_actions (entity : Entity) (user : User) (now : Int) :
    List AutomationRule → DB → Option DB
  | [], db => some db
  | r :: rest, db =>
    match execute_action db r.action_type r.action_config entity user now with
    | Option.none => Option.none
    | some db2 => run_actions entity user now rest db2

/-- Concrete deal entity used in witnesses. -/
def dealA : Entity :=
  ⟨7, some "deals",
   [("contact_id", PyVal.int 3), ("probability", PyVal.int 85),
    ("stage", PyVal.str "closed_won")]⟩

/-- Concrete acting user used in witnesses. -/
def userA : User := ⟨PyVal.str "u1"⟩

/-- Concrete enabled notification rule used in witnesses. -/
def ruleWon : AutomationRule :=
  ⟨"won", "deal_stage_change", [("stage", PyVal.str "closed_won")],
   "create_notification", [("message", PyVal.str "Deal closed!")], true⟩

/-- Concrete disabled rule used in witnesses. -/
def ruleOff : AutomationRule :=
  ⟨"off", "deal_stage_change", [], "create_notification", [], false⟩

/-- Contact entity whose contact_id attribute is present and non-null
but falsy (the integer 0). -/
def entC5 : Entity := ⟨7, some "contacts", [("contact_id", PyVal.int 0)]⟩

/-- Deal entity that also exposes a deal_id attribute. -/
def entC6 : Entity :=
  ⟨9, some "deals", [("contact_id", PyVal.int 1), ("deal_id", PyVal.int 3)]⟩

/-- Entity with no resolvable contact. -/
def entC7 : Entity := ⟨1, Option.none, []⟩

/-- Action config whose due_in_days entry is present but non-numeric. -/
def cfgSoon : List (String × PyVal) := [("due_in_days", PyVal.str "soon")]

/-- Database before a concrete dispatch, used in witnesses. -/
def dbStart : DB := ⟨[ruleWon], [], []⟩

/-- Database after that dispatch: one notification was appended. -/
def dbWon : DB :=
  ⟨[ruleWon],
   [⟨"u1", "Automation Rule", PyVal.str "Deal closed!", "system", false⟩], []⟩

/-- C3: a condition key other than probability_gte that the entity does
not expose is skipped and never causes the match to fail, and an empty
condition mapping always matches. -/
theorem check_condition_skips_absent_keys :
    (∀ e : Entity, check_condition [] e = some true)
    ∧ (∀ (e : Entity) (k : String) (v : PyVal) (rest : List (String × PyVal)),
        k ≠ "probability_gte" → e.getattr k = Option.none →
        check_condition ((k, v) :: rest) e = check_condition rest e) := by
  refine ⟨fun e => rfl, fun e k v rest hk hget => ?_⟩
  simp [check_condition, hk, hget]

/-- Closed instance of the C3 theorem at a concrete entity and condition. -/
theorem check_condition_skips_absent_keys_witness :
    check_condition [] dealA = some true
    ∧ check_condition [("nickname", PyVal.str "x"), ("stage", PyVal.str "closed_won")] dealA
        = check_condition [("stage", PyVal.str "closed_won")] dealA :=
  ⟨check_condition_skips_absent_keys.1 dealA,
   check_condition_skips_absent_keys.2 dealA "nickname" (PyVal.str "x")
     [("stage", PyVal.str "closed_won")] (by decide) (by decide)⟩

/-- C2: when the probability attribute is numeric with value m (m being 0
when the attribute is absent), a probability_gte n condition fails exactly
when m < n, matches exactly when n ≤ m, and any conjunction containing
probability_gte n can only match when n ≤ m. -/
theorem check_condition_probability_gte (e : Entity) (n m : Int)
    (hm : PyVal.toNum ((e.getattr "probability").getD (PyVal.int 0)) = some m) :
    (check_condition [("probability_gte", PyVal.int n)] e = some false ↔ m < n)
    ∧ (check_condition [("probability_gte", PyVal.int n)] e = some true ↔ n ≤ m)
    ∧ (∀ pre post,
        check_condition (pre ++ ("probability_gte", PyVal.int n) :: post) e = some true →
        n ≤ m)
    ∧ (e.getattr "probability" = Option.none → m = 0) := by
  have hlt : pyLt ((e.getattr "probability").getD (PyVal.int 0)) (PyVal.int n)
      = some (decide (m < n)) := by
    unfold pyLt
    rw [hm]
    rfl
  refine ⟨?_, ?_, ?_, ?_⟩
  · by_cases hmn : m < n <;> simp [check_condition, hlt, hmn]
  · by_cases hmn : m < n <;> simp [check_condition, hlt, hmn] <;> omega
  · intro pre post
    induction pre with
    | nil =>
      intro h
      by_cases hmn : m < n
      · simp [check_condition, hlt, hmn] at h
      · omega
    | cons hd tl ih =>
      rcases hd with ⟨k, v⟩
      by_cases hk : k = "probability_gte"
      · subst hk
        intro h
        rcases hplt : pyLt ((e.getattr "probability").getD (PyVal.int 0)) v with _ | b
        · simp [check_condition, hplt] at h
        · cases b
          · simp [check_condition, hplt] at h
            exact ih h
          · simp [check_condition, hplt] at h
      · intro h
        rcases hg : e.getattr k with _ | a
        · simp [check_condition, hk, hg] at h
          exact ih h
        · by_cases hq : pyEq a v
          · simp [check_condition, hk, hg, hq] at h
            exact ih h
          · simp [check_condition, hk, hg, hq] at h
  · intro habs
    rw [habs] at hm
    simp [PyVal.toNum] at hm
    omega

/-- Closed instance of the C2 theorem at a concrete deal with
probability 85 against threshold 80. -/
theorem check_condition_probability_gte_witness :
    check_condition [("probability_gte", PyVal.int 80)] dealA = some true :=
  ((check_condition_probability_gte dealA 80 85 (by decide)).2.1).mpr (by decide)

/-- C4: executing create_notification appends exactly one notification
owned by the acting user, with title Automation Rule, type system, unread,
and message taken from the config or defaulting to Automation Alert. -/
theorem execute_create_notification (db : DB) (config : List (String × PyVal))
    (e : Entity) (u : User) (now : Int) :
    execute_action db "create_notification" config e u now =
      some { db with notifications := db.notifications ++
        [{ user_id := pyStr u.id, title := "Automation Rule",
           message := (dictGet config "message").getD (PyVal.str "Automation Alert"),
           type := "system", read := false }] }
    ∧ (dictGet config "message" = Option.none →
        (dictGet config "message").getD (PyVal.str "Automation Alert")
          = PyVal.str "Automation Alert") := by
  constructor
  · rfl
  · intro h
    rw [h]
    rfl

/-- Closed instance of the C4 theorem with an empty config: the default
message Automation Alert is used. -/
theorem execute_create_notification_witness :
    execute_action ⟨[], [], []⟩ "create_notification" [] dealA userA 0 =
      some { rules := [], notifications :=
        [{ user_id := pyStr userA.id, title := "Automation Rule",
           message := (dictGet [] "message").getD (PyVal.str "Automation Alert"),
           type := "system", read := false }], activities := ([] : List Activity) }
    ∧ (dictGet [] "message").getD (PyVal.str "Automation Alert")
        = PyVal.str "Automation Alert" :=
  ⟨(execute_create_notification ⟨[], [], []⟩ [] dealA userA 0).1,
   (execute_create_notification ⟨[], [], []⟩ [] dealA userA 0).2 (by decide)⟩

/-- C8: any action_type other than create_notification and
create_activity leaves the database unchanged and raises no exception. -/
theorem execute_unknown_action_noop (a : String) (db : DB)
    (config : List (String × PyVal)) (e : Entity) (u : User) (now : Int)
    (h1 : a ≠ "create_notification") (h2 : a ≠ "create_activity") :
    execute_action db a config e u now = some db := by
  unfold execute_action
  rw [if_neg h1, if_neg h2]

/-- Closed instance of the C8 theorem at a concrete unknown action. -/
theorem execute_unknown_action_noop_witness :
    execute_action ⟨[], [], []⟩ "send_email" [] dealA userA 0 = some ⟨[], [], []⟩ :=
  execute_unknown_action_noop "send_email" ⟨[], [], []⟩ [] dealA userA 0
    (by decide) (by decide)

/-- Characterization of the create_activity branch of execute_action:
falsy resolved contact returns the state unchanged; otherwise the
due_in_days coercion either raises or one activity row is appended. -/
theorem execute_create_activity_eq (db : DB) (config : List (String × PyVal))
    (e : Entity) (u : User) (now : Int) :
    execute_action db "create_activity" config e u now =
      (if (resolve_contact e).truthy then
        match pyInt ((dictGet config "due_in_days").getD (PyVal.int 0)) with
        | Option.none => Option.none
        | some d => some { db with activities := db.activities ++
            [{ contact_id := resolve_contact e, deal_id := resolve_deal e,
               type := (dictGet config "type").getD (PyVal.str "task"),
               subject := (dictGet config "subject").getD (PyVal.str "Automated Task"),
               description := (dictGet config "description").getD (PyVal.str "Created by automation rule"),
               date := now + d, completed := false }] }
      else some db) := rfl

/-- C5 counterexample: the contact_id attribute of entC5 is present and
non-null (the integer 0), yet create_activity does not use it: the code
tests Python truthiness, falls through to the contacts-table branch and
creates the activity with contact_id 7, not 0. -/
theorem create_activity_contact_nonnull_counterexample :
    entC5.getattr "contact_id" = some (PyVal.int 0)
    ∧ PyVal.int 0 ≠ PyVal.none
    ∧ execute_action ⟨[], [], []⟩ "create_activity" [] entC5 userA 0 =
        some ⟨[], [],
          [⟨PyVal.int 7, PyVal.none, PyVal.str "task", PyVal.str "Automated Task",
            PyVal.str "Created by automation rule", 0, false⟩]⟩
    ∧ PyVal.int 7 ≠ PyVal.int 0 := by decide

/-- C5 amended: create_activity prefers the contact_id attribute when it
is present and truthy, else uses the entity id of a contacts row, else
resolves no contact; a falsy resolved contact makes the execution a
silent no-op, and a truthy one makes the created row carry it. -/
theorem create_activity_contact_resolution (e : Entity) :
    (∀ v, e.getattr "contact_id" = some v → v.truthy = true → resolve_contact e = v)
    ∧ ((e.getattr "contact_id").map PyVal.truthy ≠ some true →
        e.tablename = some "contacts" → resolve_contact e = PyVal.int e.id)
    ∧ ((e.getattr "contact_id").map PyVal.truthy ≠ some true →
        e.tablename ≠ some "contacts" → resolve_contact e = PyVal.none)
    ∧ (∀ (db : DB) (config : List (String × PyVal)) (u : User) (now : Int),
        (resolve_contact e).truthy = false →
        execute_action db "create_activity" config e u now = some db)
    ∧ (∀ (db : DB) (config : List (String × PyVal)) (u : User) (now n : Int),
        (resolve_contact e).truthy = true →
        pyInt ((dictGet config "due_in_days").getD (PyVal.int 0)) = some n →
        execute_action db "create_activity" config e u now =
          some { db with activities := db.activities ++
            [{ contact_id := resolve_contact e, deal_id := resolve_deal e,
               type := (dictGet config "type").getD (PyVal.str "task"),
               subject := (dictGet config "subject").getD (PyVal.str "Automated Task"),
               description := (dictGet config "description").getD (PyVal.str "Created by automation rule"),
               date := now + n, completed := false }] }) := by
  refine ⟨?_, ?_, ?_, ?_, ?_⟩
  · intro v hv htv
    simp [resolve_contact, hv, htv]
  · intro hnt htab
    rcases hg : e.getattr "contact_id" with _ | v
    · simp [resolve_contact, hg, htab]
    · rw [hg] at hnt
      have hvf : v.truthy = false := by
        cases hb : v.truthy
        · rfl
        · exact absurd (by simp [hb]) hnt
      simp [resolve_contact, hg, hvf, htab]
  · intro hnt htab
    rcases hg : e.getattr "contact_id" with _ | v
    · simp [resolve_contact, hg, htab]
    · rw [hg] at hnt
      have hvf : v.truthy = false := by
        cases hb : v.truthy
        · rfl
        · exact absurd (by simp [hb]) hnt
      simp [resolve_contact, hg, hvf, htab]
  · intro db config u now hf
    rw [execute_create_activity_eq]
    simp [hf]
  · intro db config u now n ht hn
    rw [execute_create_activity_eq]
    simp [ht, hn]

/-- Closed instance of the amended C5 theorem: a truthy contact_id
attribute is preferred, and an unresolvable contact is a silent no-op. -/
theorem create_activity_contact_resolution_witness :
    resolve_contact dealA = PyVal.int 3
    ∧ execute_action ⟨[], [], []⟩ "create_activity" [] entC7 userA 0 = some ⟨[], [], []⟩ :=
  ⟨(create_activity_contact_resolution dealA).1 (PyVal.int 3) (by decide) (by decide),
   (create_activity_contact_resolution entC7).2.2.2.1 ⟨[], [], []⟩ [] userA 0 (by decide)⟩

/-- C6 counterexample: entC6 exposes a deal_id attribute with value 3,
yet the created activity carries deal_id 9 (the entity's own id), because
the deals-table branch unconditionally overwrites the attribute. -/
theorem create_activity_deal_pref_counterexample :
    entC6.getattr "deal_id" = some (PyVal.int 3)
    ∧ execute_action ⟨[], [], []⟩ "create_activity" [] entC6 userA 0 =
        some ⟨[], [],
          [⟨PyVal.int 1, PyVal.int 9, PyVal.str "task", PyVal.str "Automated Task",
            PyVal.str "Created by automation rule", 0, false⟩]⟩
    ∧ PyVal.int 9 ≠ PyVal.int 3 := by decide

/-- C6 amended: the created activity's deal_id starts from the entity's
deal_id attribute (None when absent) but is overridden by the entity's
own id whenever the entity is a deals row; the override has priority. -/
theorem create_activity_deal_resolution :
    (∀ e : Entity, e.tablename = some "deals" → resolve_deal e = PyVal.int e.id)
    ∧ (∀ e : Entity, e.tablename ≠ some "deals" →
        resolve_deal e = (e.getattr "deal_id").getD PyVal.none)
    ∧ (∀ (db : DB) (config : List (String × PyVal)) (e : Entity) (u : User) (now n : Int),
        (resolve_contact e).truthy = true →
        pyInt ((dictGet config "due_in_days").getD (PyVal.int 0)) = some n →
        execute_action db "create_activity" config e u now =
          some { db with activities := db.activities ++
            [{ contact_id := resolve_contact e, deal_id := resolve_deal e,
               type := (dictGet config "type").getD (PyVal.str "task"),
               subject := (dictGet config "subject").getD (PyVal.str "Automated Task"),
               description := (dictGet config "description").getD (PyVal.str "Created by automation rule"),
               date := now + n, completed := false }] }) := by
  refine ⟨?_, ?_, ?_⟩
  · intro e h
    simp [resolve_deal, h]
  · intro e h
    simp [resolve_deal, h]
  · intro db config e u now n ht hn
    rw [execute_create_activity_eq]
    simp [ht, hn]

/-- Closed instance of the amended C6 theorem at a concrete deal and at a
concrete non-deal entity. -/
theorem create_activity_deal_resolution_witness :
    resolve_deal entC6 = PyVal.int 9
    ∧ resolve_deal entC5 = (entC5.getattr "deal_id").getD PyVal.none
    ∧ execute_action ⟨[], [], []⟩ "create_activity" [] entC6 userA 0 =
        some { rules := [], notifications := [], activities := ([] : List Activity) ++
          [{ contact_id := resolve_contact entC6, deal_id := resolve_deal entC6,
             type := (dictGet [] "type").getD (PyVal.str "task"),
             subject := (dictGet [] "subject").getD (PyVal.str "Automated Task"),
             description := (dictGet [] "description").getD (PyVal.str "Created by automation rule"),
             date := 0 + 0, completed := false }] } :=
  ⟨create_activity_deal_resolution.1 entC6 (by decide),
   create_activity_deal_resolution.2.1 entC5 (by decide),
   create_activity_deal_resolution.2.2 ⟨[], [], []⟩ [] entC6 userA 0 0
     (by decide) (by decide)⟩

/-- C7 counterexample: a present but non-numeric due_in_days raises no
error when the triggering entity has no resolvable contact: the silent
early return happens before the int coercion, so the execution succeeds
with the database unchanged instead of raising. -/
theorem create_activity_due_raise_counterexample :
    dictGet cfgSoon "due_in_days" = some (PyVal.str "soon")
    ∧ pyInt (PyVal.str "soon") = Option.none
    ∧ execute_action ⟨[], [], []⟩ "create_activity" cfgSoon entC7 userA 0 =
        some ⟨[], [], []⟩ := by decide

/-- C7 amended: once a contact is resolvable, the due date of the created
activity is now plus the integer coercion of due_in_days (now itself when
the entry is absent), and a present non-numeric due_in_days raises an
uncaught error with no activity created; without a resolvable contact the
early return precedes the coercion. -/
theorem create_activity_due_date (db : DB) (config : List (String × PyVal))
    (e : Entity) (u : User) (now : Int)
    (hc : (resolve_contact e).truthy = true) :
    (∀ n, pyInt ((dictGet config "due_in_days").getD (PyVal.int 0)) = some n →
      execute_action db "create_activity" config e u now =
        some { db with activities := db.activities ++
          [{ contact_id := resolve_contact e, deal_id := resolve_deal e,
             type := (dictGet config "type").getD (PyVal.str "task"),
             subject := (dictGet config "subject").getD (PyVal.str "Automated Task"),
             description := (dictGet config "description").getD (PyVal.str "Created by automation rule"),
             date := now + n, completed := false }] })
    ∧ (∀ v, dictGet config "due_in_days" = some v → pyInt v = Option.none →
        execute_action db "create_activity" config e u now = Option.none) := by
  constructor
  · intro n hn
    rw [execute_create_activity_eq]
    simp [hc, hn]
  · intro v hv hnv
    rw [execute_create_activity_eq]
    rw [hv]
    simp [hc, hnv]

/-- Closed instance of the amended C7 theorem: due_in_days 2 yields a due
date two days from now, and a non-numeric due_in_days raises once the
contact is resolvable. -/
theorem create_activity_due_date_witness :
    execute_action ⟨[], [], []⟩ "create_activity" [("due_in_days", PyVal.str "2")] dealA userA 10 =
      some { rules := [], notifications := [], activities := ([] : List Activity) ++
        [{ contact_id := resolve_contact dealA, deal_id := resolve_deal dealA,
           type := (dictGet [("due_in_days", PyVal.str "2")] "type").getD (PyVal.str "task"),
           subject := (dictGet [("due_in_days", PyVal.str "2")] "subject").getD (PyVal.str "Automated Task"),
           description := (dictGet [("due_in_days", PyVal.str "2")] "description").getD (PyVal.str "Created by automation rule"),
           date := 10 + 2, completed := false }] }
    ∧ execute_action ⟨[], [], []⟩ "create_activity" cfgSoon dealA userA 10 = Option.none :=
  ⟨(create_activity_due_date ⟨[], [], []⟩ [("due_in_days", PyVal.str "2")] dealA userA 10
      (by decide)).1 2 (by decide),
   (create_activity_due_date ⟨[], [], []⟩ cfgSoon dealA userA 10
      (by decide)).2 (PyVal.str "soon") (by decide) (by decide)⟩

/-- Unfolding of the create_notification branch of execute_action. -/
theorem execute_create_notification_eq (db : DB) (config : List (String × PyVal))
    (e : Entity) (u : User) (now : Int) :
    execute_action db "create_notification" config e u now =
      some { db with notifications := db.notifications ++
        [{ user_id := pyStr u.id, title := "Automation Rule",
           message := (dictGet config "message").getD (PyVal.str "Automation Alert"),
           type := "system", read := false }] } := rfl

/-- Unfolding of execute_action on an action_type with no executor. -/
theorem execute_action_other_eq (db : DB) (a : String)
    (config : List (String × PyVal)) (e : Entity) (u : User) (now : Int)
    (h1 : a ≠ "create_notification") (h2 : a ≠ "create_activity") :
    execute_action db a config e u now = some db := by
  unfold execute_action
  rw [if_neg h1, if_neg h2]

/-- Unfolding of run_rules on a cons cell. -/
theorem run_rules_cons (e : Entity) (u : User) (now : Int)
    (r : AutomationRule) (rest : List AutomationRule) (db : DB) :
    run_rules e u now (r :: rest) db =
      (match check_condition r.condition e with
      | Option.none => Option.none
      | some false => run_rules e u now rest db
      | some true =>
        match execute_action db r.action_type r.action_config e u now with
        | Option.none => Option.none
        | some db2 => run_rules e u now rest db2) := rfl

/-- Unfolding of run_actions on a cons cell. -/
theorem run_actions_cons (e : Entity) (u : User) (now : Int)
    (r : AutomationRule) (rest : List AutomationRule) (db : DB) :
    run_actions e u now (r :: rest) db =
      (match execute_action db r.action_type r.action_config e u now with
      | Option.none => Option.none
      | some db2 => run_actions e u now rest db2) := rfl

/-- A successful execute_action keeps the stored rules and only appends
to the notification and activity tables. -/
theorem execute_action_state (db : DB) (a : String)
    (config : List (String × PyVal)) (e : Entity) (u : User) (now : Int)
    (db' : DB) (h : execute_action db a config e u now = some db') :
    db'.rules = db.rules
    ∧ (∃ ns, db'.notifications = db.notifications ++ ns)
    ∧ (∃ acts, db'.activities = db.activities ++ acts) := by
  by_cases h1 : a = "create_notification"
  · subst h1
    rw [execute_create_notification_eq] at h
    injection h with h2
    subst h2
    exact ⟨rfl, ⟨_, rfl⟩, ⟨[], (List.append_nil _).symm⟩⟩
  · by_cases h2 : a = "create_activity"
    · subst h2
      rw [execute_create_activity_eq] at h
      split at h
      · split at h
        · exact absurd h (by simp)
        · injection h with h3
          subst h3
          exact ⟨rfl, ⟨[], (List.append_nil _).symm⟩, ⟨_, rfl⟩⟩
      · injection h with h3
        subst h3
        exact ⟨rfl, ⟨[], (List.append_nil _).symm⟩, ⟨[], (List.append_nil _).symm⟩⟩
    · rw [execute_action_other_eq db a config e u now h1 h2] at h
      injection h with h3
      subst h3
      exact ⟨rfl, ⟨[], (List.append_nil _).symm⟩, ⟨[], (List.append_nil _).symm⟩⟩

/-- A successful run over a rule list keeps the stored rules and only
appends to the notification and activity tables. -/
theorem run_rules_state (e : Entity) (u : User) (now : Int) :
    ∀ (rs : List AutomationRule) (db db' : DB),
    run_rules e u now rs db = some db' →
    db'.rules = db.rules
    ∧ (∃ ns, db'.notifications = db.notifications ++ ns)
    ∧ (∃ acts, db'.activities = db.activities ++ acts) := by
  intro rs
  induction rs with
  | nil =>
    intro db db' h
    injection h with h2
    subst h2
    exact ⟨rfl, ⟨[], (List.append_nil _).symm⟩, ⟨[], (List.append_nil _).symm⟩⟩
  | cons r rest ih =>
    intro db db' h
    rw [run_rules_cons] at h
    rcases hc : check_condition r.condition e with _ | b
    · rw [hc] at h
      exact absurd h (by simp)
    · rw [hc] at h
      cases b
      · exact ih db db' h
      · rcases hx : execute_action db r.action_type r.action_config e u now with _ | db2
        · rw [hx] at h
          exact absurd h (by simp)
        · rw [hx] at h
          obtain ⟨hr1, ⟨ns1, hn1⟩, ⟨as1, ha1⟩⟩ :=
            execute_action_state db r.action_type r.action_config e u now db2 hx
          obtain ⟨hr2, ⟨ns2, hn2⟩, ⟨as2, ha2⟩⟩ := ih db2 db' h
          refine ⟨hr2.trans hr1, ⟨ns1 ++ ns2, ?_⟩, ⟨as1 ++ as2, ?_⟩⟩
          · rw [hn2, hn1, List.append_assoc]
          · rw [ha2, ha1, List.append_assoc]

/-- C10: a successful evaluate_rules dispatch leaves the stored rules
unmodified and leaves every pre-existing notification and activity row in
place: its only effect on the state is appending newly inserted rows. -/
theorem evaluate_rules_frame (db : DB) (t : String) (e : Entity) (u : User)
    (now : Int) (db' : DB) (h : evaluate_rules db t e u now = some db') :
    db'.rules = db.rules
    ∧ (∃ ns, db'.notifications = db.notifications ++ ns)
    ∧ (∃ acts, db'.activities = db.activities ++ acts) := by
  unfold evaluate_rules at h
  exact run_rules_state e u now _ db db' h

/-- Closed instance of the C10 theorem at a concrete dispatch. -/
theorem evaluate_rules_frame_witness :
    dbWon.rules = dbStart.rules
    ∧ (∃ ns, dbWon.notifications = dbStart.notifications ++ ns)
    ∧ (∃ acts, dbWon.activities = dbStart.activities ++ acts) :=
  evaluate_rules_frame dbStart "deal_stage_change" dealA userA 0 dbWon (by decide)

/-- Composing two filters equals one filter by the conjunction. -/
theorem filter_and_comp {α : Type} (p q : α → Bool) :
    ∀ l : List α, (l.filter p).filter q = l.filter fun x => p x && q x := by
  intro l
  induction l with
  | nil => rfl
  | cons x xs ih =>
    by_cases hp : p x
    · by_cases hq : q x <;> simp [List.filter_cons, hp, hq, ih]
    · simp [List.filter_cons, hp, ih]

/-- Running selected rules equals running the actions of exactly the
condition-matching ones, provided no condition raises. -/
theorem run_rules_eq_run_actions (e : Entity) (u : User) (now : Int) :
    ∀ (rs : List AutomationRule) (db : DB),
    (∀ r ∈ rs, (check_condition r.condition e).isSome) →
    run_rules e u now rs db =
      run_actions e u now
        (rs.filter fun r => decide (check_condition r.condition e = some true)) db := by
  intro rs
  induction rs with
  | nil => intro db _; rfl
  | cons r rest ih =>
    intro db h
    have hr : (check_condition r.condition e).isSome := h r (List.mem_cons_self r rest)
    have hrest : ∀ x ∈ rest, (check_condition x.condition e).isSome :=
      fun x hx => h x (List.mem_cons_of_mem r hx)
    rcases hc : check_condition r.condition e with _ | b
    · rw [hc] at hr
      simp at hr
    · cases b
      · have hflt : ((r :: rest).filter
              fun x => decide (check_condition x.condition e = some true))
            = rest.filter fun x => decide (check_condition x.condition e = some true) := by
          simp [List.filter_cons, hc]
        rw [run_rules_cons, hc, hflt]
        exact ih db hrest
      · have hflt : ((r :: rest).filter
              fun x => decide (check_condition x.condition e = some true))
            = r :: rest.filter fun x => decide (check_condition x.condition e = some true) := by
          simp [List.filter_cons, hc]
        rw [run_rules_cons, hc, hflt, run_actions_cons]
        rcases hx : execute_action db r.action_type r.action_config e u now with _ | db2
        · rfl
        · exact ih db2 hrest

/-- The stored rule list never influences what execute_action does; it is
only carried along in the state. -/
theorem execute_action_rules_irrelevant (R Rx : List AutomationRule)
    (ns : List Notification) (acts : List Activity) (a : String)
    (config : List (String × PyVal)) (e : Entity) (u : User) (now : Int) :
    execute_action ⟨R, ns, acts⟩ a config e u now =
      (execute_action ⟨Rx, ns, acts⟩ a config e u now).map
        fun d => ⟨R, d.notifications, d.activities⟩ := by
  by_cases h1 : a = "create_notification"
  · subst h1
    rw [execute_create_notification_eq, execute_create_notification_eq]
    rfl
  · by_cases h2 : a = "create_activity"
    · subst h2
      rw [execute_create_activity_eq, execute_create_activity_eq]
      cases htr : (resolve_contact e).truthy
      · simp [htr]
      · cases hpi : pyInt ((dictGet config "due_in_days").getD (PyVal.int 0))
        · simp [htr, hpi]
        · simp [htr, hpi]
    · rw [execute_action_other_eq ⟨R, ns, acts⟩ a config e u now h1 h2,
        execute_action_other_eq ⟨Rx, ns, acts⟩ a config e u now h1 h2]
      rfl

/-- The stored rule list never influences a run over an already selected
rule list; it is only carried along in the state. -/
theorem run_rules_rules_irrelevant (e : Entity) (u : User) (now : Int) :
    ∀ (rs R Rx : List AutomationRule)
      (ns : List Notification) (acts : List Activity),
    run_rules e u now rs ⟨R, ns, acts⟩ =
      (run_rules e u now rs ⟨Rx, ns, acts⟩).map
        fun d => ⟨R, d.notifications, d.activities⟩ := by
  intro rs
  induction rs with
  | nil => intro R Rx ns acts; rfl
  | cons r rest ih =>
    intro R Rx ns acts
    rw [run_rules_cons, run_rules_cons]
    rcases hc : check_condition r.condition e with _ | b
    · rfl
    · cases b
      · exact ih R Rx ns acts
      · rw [execute_action_rules_irrelevant R Rx ns acts r.action_type
          r.action_config e u now]
        rcases hx : execute_action ⟨Rx, ns, acts⟩ r.action_type r.action_config e u now
          with _ | d
        · rfl
        · cases d with
          | mk dr dn da =>
            obtain ⟨hdr, -, -⟩ := execute_action_state ⟨Rx, ns, acts⟩ r.action_type
              r.action_config e u now ⟨dr, dn, da⟩ hx
            dsimp at hdr
            subst hdr
            exact ih _ _ dn da

/-- C1: provided no considered condition raises, a dispatch executes, in
storage order, the actions of exactly the stored rules whose trigger_type
equals the given string, whose enabled flag is true and whose condition
matches the entity; and a rule that is disabled or has a different
trigger_type contributes nothing: deleting it from storage yields the
same dispatch result apart from the stored rule list itself, so its
condition is never consulted and its action never run. -/
theorem evaluate_rules_selects (db : DB) (t : String) (e : Entity) (u : User)
    (now : Int) :
    ((∀ r ∈ db.rules, r.trigger_type = t → r.enabled = true →
        (check_condition r.condition e).isSome) →
      evaluate_rules db t e u now =
        run_actions e u now
          (db.rules.filter fun r =>
            r.trigger_type == t && r.enabled
              && decide (check_condition r.condition e = some true)) db)
    ∧ (∀ (pre post : List AutomationRule) (r : AutomationRule)
        (ns : List Notification) (acts : List Activity),
        r.enabled = false ∨ r.trigger_type ≠ t →
        evaluate_rules ⟨pre ++ r :: post, ns, acts⟩ t e u now =
          (evaluate_rules ⟨pre ++ post, ns, acts⟩ t e u now).map
            fun d => ⟨pre ++ r :: post, d.notifications, d.activities⟩) := by
  constructor
  · intro h
    have hall : ∀ r ∈ db.rules.filter fun x => x.trigger_type == t && x.enabled,
        (check_condition r.condition e).isSome := by
      intro r hrm
      rw [List.mem_filter] at hrm
      obtain ⟨hmem, hp⟩ := hrm
      rw [Bool.and_eq_true, beq_iff_eq] at hp
      exact h r hmem hp.1 hp.2
    unfold evaluate_rules
    rw [run_rules_eq_run_actions e u now _ db hall]
    congr 1
    exact filter_and_comp _ _ db.rules
  · intro pre post r ns acts hr
    have hpr : (r.trigger_type == t && r.enabled) = false := by
      rcases hr with h1 | h1
      · simp [h1]
      · simp [h1]
    unfold evaluate_rules
    change run_rules e u now
        ((pre ++ r :: post).filter fun x => x.trigger_type == t && x.enabled)
        ⟨pre ++ r :: post, ns, acts⟩ =
      (run_rules e u now
        ((pre ++ post).filter fun x => x.trigger_type == t && x.enabled)
        ⟨pre ++ post, ns, acts⟩).map
        fun d => ⟨pre ++ r :: post, d.notifications, d.activities⟩
    have hflt : ((pre ++ r :: post).filter fun x => x.trigger_type == t && x.enabled)
        = (pre ++ post).filter fun x => x.trigger_type == t && x.enabled := by
      simp [List.filter_append, List.filter_cons, hpr]
    rw [hflt]
    exact run_rules_rules_irrelevant e u now _ _ _ ns acts

/-- Closed instance of the C1 theorem: a dispatch over one enabled
matching rule, and removal of a disabled rule from a dispatch. -/
theorem evaluate_rules_selects_witness :
    evaluate_rules dbStart "deal_stage_change" dealA userA 0 =
      run_actions dealA userA 0
        (dbStart.rules.filter fun r =>
          r.trigger_type == "deal_stage_change" && r.enabled
            && decide (check_condition r.condition dealA = some true)) dbStart
    ∧ evaluate_rules ⟨[] ++ ruleOff :: [], [], []⟩ "deal_stage_change" dealA userA 0 =
        (evaluate_rules ⟨[] ++ [], [], []⟩ "deal_stage_change" dealA userA 0).map
          (fun d => ⟨[] ++ ruleOff :: [], d.notifications, d.activities⟩) :=
  ⟨(evaluate_rules_selects dbStart "deal_stage_change" dealA userA 0).1 (by decide),
   (evaluate_rules_selects dbStart "deal_stage_change" dealA userA 0).2
     [] [] ruleOff [] [] (Or.inl (by decide))⟩

/-- C9: a dispatch over one enabled, matching, create_notification rule
appends one notification; repeating it on the unchanged entity appends a
second one, so two runs create two notifications with no deduplication. -/
theorem evaluate_rules_not_idempotent (r : AutomationRule)
    (ns : List Notification) (acts : List Activity) (t : String) (e : Entity)
    (u : User) (n1 n2 : Int)
    (ht : r.trigger_type = t) (hen : r.enabled = true)
    (hact : r.action_type = "create_notification")
    (hcond : check_condition r.condition e = some true) :
    ∃ db1 db2,
      evaluate_rules ⟨[r], ns, acts⟩ t e u n1 = some db1
      ∧ evaluate_rules db1 t e u n2 = some db2
      ∧ db1.notifications.length = ns.length + 1
      ∧ db2.notifications.length = ns.length + 2 := by
  have hfilter : (([r] : List AutomationRule).filter
      fun x => x.trigger_type == t && x.enabled) = [r] := by
    simp [ht, hen]
  have e1 : evaluate_rules ⟨[r], ns, acts⟩ t e u n1 =
      some ⟨[r], ns ++
        [{ user_id := pyStr u.id, title := "Automation Rule",
           message := (dictGet r.action_config "message").getD (PyVal.str "Automation Alert"),
           type := "system", read := false }], acts⟩ := by
    unfold evaluate_rules
    rw [show (DB.mk [r] ns acts).rules = [r] from rfl, hfilter, run_rules_cons, hcond,
      hact, execute_create_notification_eq]
    rfl
  have e2 : evaluate_rules ⟨[r], ns ++
      [{ user_id := pyStr u.id, title := "Automation Rule",
         message := (dictGet r.action_config "message").getD (PyVal.str "Automation Alert"),
         type := "system", read := false }], acts⟩ t e u n2 =
      some ⟨[r], (ns ++
        [{ user_id := pyStr u.id, title := "Automation Rule",
           message := (dictGet r.action_config "message").getD (PyVal.str "Automation Alert"),
           type := "system", read := false }]) ++
        [{ user_id := pyStr u.id, title := "Automation Rule",
           message := (dictGet r.action_config "message").getD (PyVal.str "Automation Alert"),
           type := "system", read := false }], acts⟩ := by
    unfold evaluate_rules
    rw [show (DB.mk [r] (ns ++ [_]) acts).rules = [r] from rfl, hfilter, run_rules_cons,
      hcond, hact, execute_create_notification_eq]
    rfl
  refine ⟨_, _, e1, e2, ?_, ?_⟩
  · simp
  · simp
/-- Closed instance of the C9 theorem at a concrete rule and entity. -/
theorem evaluate_rules_not_idempotent_witness :
    ∃ db1 db2,
      evaluate_rules ⟨[ruleWon], [], []⟩ "deal_stage_change" dealA userA 0 = some db1
      ∧ evaluate_rules db1 "deal_stage_change" dealA userA 0 = some db2
      ∧ db1.notifications.length = ([] : List Notification).length + 1
      ∧ db2.notifications.length = ([] : List Notification).length + 2 :=
  evaluate_rules_not_idempotent ruleWon [] [] "deal_stage_change" dealA userA 0 0
    (by decide) (by decide) (by decide) (by decide)
